import Mathlib

set_option maxRecDepth 8000

/-!
Shallow embedding, in Lean 4, of the core of the `lle` emulator (an ARM SoC
emulator for Nuvoton N329x-class devices): the cooperative scheduler's
stop-request machinery (`src/device.rs`), CPU exception vectoring
(`src/exception.rs`), the interrupt controller state (`src/peripherals/aic.rs`),
the SD card protocol model (`src/extdev/sd.rs`) and the SD host controller
tick (`src/peripherals/sic.rs`), together with theorems settling the
specification claims about them.

Machine integers are embedded as `Nat` with explicit truncation where the Rust
code relies on a fixed width; fallible operations take their host-I/O outcomes
as explicit `Except` parameters; Rust panics (`todo!()`, `unwrap()` on `None`)
are embedded as `Option.none` results.
-/

namespace LLE

/-! ### Bitfield helpers

The Rust code uses the `bit_field` crate: packed registers expose
`get(offset, width)` / `set(offset, width, value)` accessors.  We embed packed
registers as `Nat` and these accessors as `getBits` / `setBits`. -/

/-- Read `w` bits of `r` starting at bit `off` (the `bit_field` crate's
`get(off, w)`). -/
def getBits (r off w : Nat) : Nat := (r >>> off) % 2 ^ w

/-- Overwrite `w` bits of `r` starting at bit `off` with `v` (the `bit_field`
crate's `set(off, w, v)`). -/
def setBits (r off w v : Nat) : Nat :=
  r % 2 ^ off + (v % 2 ^ w) * 2 ^ off + (r >>> (off + w)) * 2 ^ (off + w)

/-- Bitwise complement of a 32-bit value, embedding Rust `!x` at type `u32`
(the argument is assumed to be a `u32`, i.e. `< 2^32`). -/
def u32_not (x : Nat) : Nat := (2 ^ 32 - 1) ^^^ x

/-- Pointwise update of a function modelling a Rust array or buffer. -/
def updAt (f : Nat → Nat) (i v : Nat) : Nat → Nat :=
  fun j => if j = i then v else f j

theorem shiftLeft_one_eq (i : Nat) : 1 <<< i = 2 ^ i := by
  rw [Nat.shiftLeft_eq, Nat.one_mul]

theorem land_shiftLeft_one_ne_zero (x i : Nat) :
    x &&& (1 <<< i) ≠ 0 ↔ x.testBit i = true := by
  rw [shiftLeft_one_eq, Nat.and_two_pow]
  cases h : x.testBit i <;> simp [h]

theorem ne_zero_iff_exists_testBit (n : Nat) :
    n ≠ 0 ↔ ∃ i, n.testBit i = true := by
  constructor
  · intro h
    obtain ⟨i, hi, -⟩ := Nat.exists_most_significant_bit h
    exact ⟨i, hi⟩
  · rintro ⟨i, hi⟩ rfl
    simp [Nat.zero_testBit] at hi

theorem testBit_eq_false_of_ge {n i w : Nat} (hn : n < 2 ^ w) (hw : w ≤ i) :
    n.testBit i = false :=
  Nat.testBit_eq_false_of_lt (Nat.lt_of_lt_of_le hn (Nat.pow_le_pow_right (by omega) hw))

/-! ### Cooperative scheduler: stop requests (src/device.rs)

`StopReason` is the Rust enum verbatim: a single stored value, not a set.
`request_stop` is the only way a peripheral asks the scheduler for attention.
`Device::tick` is embedded as `Device_tick`, at the granularity of the
externally visible actions of each dispatch arm. -/

/-- Detail carried by a `Quit` stop reason (`QuitDetail` in src/device.rs). -/
inductive QuitDetail
  | UserSpecified
  | CPUException
  | CPUHalt
  | HLECallbackFailure
  deriving DecidableEq, Repr

/-- The scheduler stop reason (`StopReason` in src/device.rs).  Note this is a
single-valued enum: the emulator stores at most one pending reason. -/
inductive StopReason
  | Run
  | Quit (detail : QuitDetail)
  | Tick
  | FrameStep
  | SVC
  deriving DecidableEq, Repr

/-- Embeds the Rust `matches!(r, StopReason::Run)`. -/
def StopReason.is_run : StopReason → Bool
  | .Run => true
  | _ => false

/-- Embeds the Rust `matches!(r, StopReason::Quit(_))`. -/
def StopReason.is_quit : StopReason → Bool
  | .Quit _ => true
  | _ => false

/-- Embedding of `request_stop` (src/device.rs lines 78-89): the new reason is
stored only when the current reason is `Run`, or when the new reason is `Quit`
and the current one is not; otherwise the call is a no-op. -/
def request_stop (current reason : StopReason) : StopReason :=
  if reason.is_run then current
  else if current.is_run || (!current.is_quit && reason.is_quit) then reason
  else current

/-- The externally visible actions a single `Device::tick` dispatch pass can
perform, one per non-trivial match arm of `Device::tick`. -/
inductive TickAction
  | FramePresent
  | SvcVector
  | DeviceTicks
  deriving DecidableEq, Repr

/-- Embedding of `Device::tick` (src/device.rs lines 112-160).  The stored stop
reason selects exactly one match arm.  `renderOk` is the outcome of
`render.render()` in the `FrameStep` arm (a failure overwrites the stop reason
with `Quit(HLECallbackFailure)`).  `tickRequests` are the `request_stop` calls
issued by the five device ticks while the `Tick` arm runs (for instance
`sic::tick` posting an interrupt requests another `Tick`).  Returns
(continue flag, stop reason left for the next boundary, actions serviced).
After the match, the Rust code `mem::take`s the stop reason (leaving `Run`) and
returns `false` iff the taken value was a `Quit`; the `Quit` arm returns early
without consuming the reason. -/
def Device_tick (renderOk : Bool) (tickRequests : List StopReason)
    (stop_reason : StopReason) : Bool × StopReason × List TickAction :=
  match stop_reason with
  | .Quit d => (false, .Quit d, [])
  | .Run => (true, .Run, [])
  | .FrameStep =>
      let after := if renderOk then StopReason.FrameStep
                   else .Quit .HLECallbackFailure
      (!after.is_quit, .Run, [.FramePresent])
  | .SVC => (true, .Run, [.SvcVector])
  | .Tick =>
      let after := tickRequests.foldl request_stop .Tick
      (!after.is_quit, .Run, [.DeviceTicks])

/-! ### Exception vectoring (src/exception.rs) -/

/-- `ExceptionType` (src/exception.rs).  The `repr(u8)` discriminant doubles as
the offset of the exception vector. -/
inductive ExceptionType
  | Reset
  | UndefinedInstruction
  | SupervisorCall
  | PrefetchAbort
  | DataAbort
  | IRQ
  | FIQ
  deriving DecidableEq, Repr

/-- The `repr(u8)` discriminant of each `ExceptionType` variant. -/
def ExceptionType.discriminant : ExceptionType → Nat
  | .Reset => 0x0
  | .UndefinedInstruction => 0x4
  | .SupervisorCall => 0x8
  | .PrefetchAbort => 0xc
  | .DataAbort => 0x10
  | .IRQ => 0x18
  | .FIQ => 0x1c

/-- Embedding of `ExceptionType::to_vector_address`: vector base `0xff000000`
plus the variant's discriminant. -/
def ExceptionType.to_vector_address (t : ExceptionType) : Nat :=
  0xff000000 + t.discriminant

/-- The CPU registers touched by `call_exception_handler`. -/
structure CPUState where
  pc : Nat
  cpsr : Nat
  spsr : Nat
  lr : Nat
  deriving DecidableEq, Repr

/-- The link-register value computed in `call_exception_handler` from the
current PC.  Per the comments in src/exception.rs, `current_pc` is always the
resume point: for `SupervisorCall` the CPU core already reports the next
instruction, so no offset is added; the other kinds add their fixed offset. -/
def computed_lr : ExceptionType → Nat → Nat
  | .Reset, pc => pc
  | .UndefinedInstruction, pc => pc + 4
  | .SupervisorCall, pc => pc
  | .PrefetchAbort, pc => pc + 4
  | .DataAbort, pc => pc + 8
  | .IRQ, pc => pc + 4
  | .FIQ, pc => pc + 4

/-- The CPSR bits ORed in by `call_exception_handler` after clearing the low
six bits: target processor mode plus interrupt-mask bits. -/
def computed_cpsr_set : ExceptionType → Nat
  | .Reset => 0b11010011
  | .UndefinedInstruction => 0b10011011
  | .SupervisorCall => 0b10010011
  | .PrefetchAbort => 0b10010111
  | .DataAbort => 0b10010111
  | .IRQ => 0b10010010
  | .FIQ => 0b11010001

/-- Embedding of `call_exception_handler` (src/exception.rs lines 30-68):
save CPSR to SPSR, clear the low six CPSR bits and OR in the kind's mode and
mask bits (`!0b00111111u64` is `2^64 - 64`), write the computed link register,
and jump to the vector address. -/
def call_exception_handler (s : CPUState) (t : ExceptionType) : CPUState :=
  { pc := t.to_vector_address
    cpsr := (s.cpsr &&& (2 ^ 64 - 64)) ||| computed_cpsr_set t
    spsr := s.cpsr
    lr := computed_lr t s.pc }

/-! ### SD card protocol model (src/extdev/sd.rs)

The card status register (`CardStatus`, a `bit_field` struct over `u32`) is
embedded as a packed `Nat`; the bit offsets below follow the field list of the
Rust struct (bit 5 `app_command`, bits 9-12 `current_state`, bit 22
`illegal_command`, bit 29 `block_len_error`, ...). -/

/-- CID bytes of the emulated embedded SD card. -/
def CID_ESD : List Nat :=
  [0x00, 0x45, 0x6d, 0x49, 0x6e, 0x74, 0x53, 0x44,
   0x10, 0xde, 0xad, 0xbe, 0xef, 0x00, 0xe1, 0x6f]

/-- SD configuration register payload (SD spec v2.00, 1-and-4-bit bus). -/
def SCR : List Nat := [0x02, 0x05, 0x00, 0x00, 0x00, 0x00, 0x00, 0x00]

/-- Per-function-group capability words, listed from group 6 down to group 1. -/
def CARD_FUNC : List Nat :=
  [0b1000000000000001, 0b1000000000000001, 0b1000000000000001,
   0b1000000000000001, 0b1000000000000001, 0b1000000000000011]

/-- Images larger than this are treated as high-capacity cards. -/
def SDSC_MAX_CAPACITY : Nat := 0x80000000

/-- The 16-value card state machine (`CurrentState`), stored in bits 9-12 of
the card status register. -/
inductive CurrentState
  | Idle
  | Ready
  | Identification
  | StandBy
  | Transfer
  | SendingData
  | ReceivingData
  | Programming
  | Disconnect
  | Inactive
  | Reserved10
  | Reserved11
  | Reserved12
  | Reserved13
  | Reserved14
  | Reserved15
  deriving DecidableEq, Repr

/-- Integer encoding of `CurrentState` (declaration order, `Idle = 0`). -/
def CurrentState.toNat : CurrentState → Nat
  | .Idle => 0
  | .Ready => 1
  | .Identification => 2
  | .StandBy => 3
  | .Transfer => 4
  | .SendingData => 5
  | .ReceivingData => 6
  | .Programming => 7
  | .Disconnect => 8
  | .Inactive => 9
  | .Reserved10 => 10
  | .Reserved11 => 11
  | .Reserved12 => 12
  | .Reserved13 => 13
  | .Reserved14 => 14
  | .Reserved15 => 15

/-- Decoding of a 4-bit field into `CurrentState` (inputs are `< 16`). -/
def CurrentState.decode : Nat → CurrentState
  | 0 => .Idle
  | 1 => .Ready
  | 2 => .Identification
  | 3 => .StandBy
  | 4 => .Transfer
  | 5 => .SendingData
  | 6 => .ReceivingData
  | 7 => .Programming
  | 8 => .Disconnect
  | 9 => .Inactive
  | 10 => .Reserved10
  | 11 => .Reserved11
  | 12 => .Reserved12
  | 13 => .Reserved13
  | 14 => .Reserved14
  | _ => .Reserved15

/-- Embeds `CardStatus::get_current_state`. -/
def get_current_state (r : Nat) : CurrentState :=
  CurrentState.decode (getBits r 9 4)

/-- Embeds `CardStatus::set_current_state`. -/
def set_current_state (r : Nat) (st : CurrentState) : Nat :=
  setBits r 9 4 st.toNat

/-- Embeds `CardStatus::after_read` (the clear-on-read subset): clears bits
26-31, 24, 19-21, 15-16, 13, 5 and 3, in the order the Rust method does.  The
Rust method returns the pre-clear value; call sites here capture it before
applying this function. -/
def CardStatus_after_read (r : Nat) : Nat :=
  setBits (setBits (setBits (setBits (setBits (setBits (setBits r
    26 6 0) 24 1 0) 19 3 0) 15 2 0) 13 1 0) 5 1 0) 3 1 0

/-- Pending DAT-channel transfer from host to card (`SendAction`). -/
inductive SendAction
  | None
  | FTLWrite (sector_index : Nat)
  deriving DecidableEq, Repr

/-- Pending DAT-channel transfer from card to host (`RecvAction`). -/
inductive RecvAction
  | None
  | FTLRead (sector_index : Nat)
  | SCRRead
  | FunctionStatus (arg : Nat)
  deriving DecidableEq, Repr

/-- Typed response of the card model (`Response`).  R1 carries the echoed
command number and a status-register snapshot; R2 sixteen CID/CSD bytes; R3
the OCR plus capacity class; R6 the published relative address; R7 the echoed
voltage/check pattern. -/
inductive Response
  | RNone
  | R1 (cmd : Nat) (status : Nat) (busy : Bool)
  | R2 (cid_csd : List Nat)
  | R3 (ocr : Nat) (is_sdhc : Bool) (power_up : Bool)
  | R6 (rca : Nat) (status : Nat)
  | R7 (voltage_accepted : Nat) (check : Nat)
  deriving DecidableEq, Repr

/-- Fold a list of (offset, width, value) writes into a packed register,
mirroring a sequence of `bit_field` setter calls on a zeroed value. -/
def packFields (l : List (Nat × Nat × Nat)) : Nat :=
  l.foldl (fun r f => setBits r f.1 f.2.1 f.2.2) 0

/-- The `Default` CSD for standard-capacity cards (`CardSpecificSC::default`),
as the 128-bit register value; the writes appear in the Rust order.  Field
offsets follow the SC bitfield layout (tail at bit 0, `c_size` at bits 62-73,
`csd_structure` at bits 126-127). -/
def CardSpecificSC_default : Nat :=
  packFields
    [(126, 2, 0), (0, 1, 1), (96, 8, 0x032), (84, 12, 0x5b5), (79, 1, 1),
     (21, 1, 1), (80, 4, 0xa), (22, 4, 0xa), (47, 3, 0x7), (26, 3, 0x2),
     (46, 1, 1), (39, 7, 0x7f), (59, 3, 0x7), (56, 3, 0x7), (53, 3, 0x7),
     (50, 3, 0x7)]

/-- The `Default` CSD for high-capacity cards (`CardSpecificHC::default`);
`c_size` sits at bits 48-69 in the HC layout. -/
def CardSpecificHC_default : Nat :=
  packFields
    [(126, 2, 1), (0, 1, 1), (112, 8, 0xe), (96, 8, 0x032), (84, 12, 0x5b5),
     (80, 4, 0x9), (22, 4, 0x9), (26, 3, 0x2), (46, 1, 1), (39, 7, 0x7f)]

/-- Capacity-dependent card-specific data (`CardSpecific`), carrying the
128-bit CSD register value. -/
inductive CardSpecific
  | SC (bits : Nat)
  | HC (bits : Nat)
  deriving DecidableEq, Repr

/-- Embeds `CardSpecific::is_sdhc`. -/
def CardSpecific.is_sdhc : CardSpecific → Bool
  | .SC _ => false
  | .HC _ => true

/-- Embeds `CardSpecific::init_with_size`: images above `SDSC_MAX_CAPACITY`
get the high-capacity layout.  The Rust code computes `size / 1024 / 512 - 1`
in a fixed-width integer (and would panic, per its own TODO, on images smaller
than 512 KiB); `Nat` subtraction truncates at zero instead, which no claim
depends on. -/
def CardSpecific.init_with_size (size : Nat) : CardSpecific :=
  if size > SDSC_MAX_CAPACITY then
    .HC (setBits CardSpecificHC_default 48 22 (size / 1024 / 512 - 1))
  else
    .SC (setBits CardSpecificSC_default 62 12 (size / 1024 / 512 - 1))

/-- Embeds `CardSpecific::as_bytes`: the CSD value as 16 big-endian bytes. -/
def CardSpecific.as_bytes : CardSpecific → List Nat
  | .SC b => (List.range 16).map (fun i => getBits b ((15 - i) * 8) 8)
  | .HC b => (List.range 16).map (fun i => getBits b ((15 - i) * 8) 8)

/-- The backing image file of a mounted card, reduced to its byte contents
(`recv_data` always seeks absolutely, so no cursor is needed). -/
structure FileImage where
  contents : List Nat
  deriving DecidableEq, Repr

/-- Opaque stand-in for `std::io::Error`. -/
structure IOError where
  code : Nat
  deriving DecidableEq, Repr

/-- The crate's typed error enum (`RuntimeError` in src/main.rs). -/
inductive RuntimeError
  | IOError (e : IOError)
  | UnicornError (code : Nat)
  | LoaderParserFailed
  | LoaderInvalidMagic
  | SDAlreadyMounted
  | SDNotMounted
  deriving DecidableEq, Repr

/-- One emulated SD card (`SD` in src/extdev/sd.rs). -/
structure SD where
  csd : Option CardSpecific
  card_status : Nat
  rca : Nat
  selected_functions : Nat
  io_size : Nat
  image_file : Option FileImage
  send_action : SendAction
  recv_action : RecvAction
  deriving DecidableEq, Repr

/-- The `Default` (freshly constructed, unmounted) card. -/
def SD.new : SD :=
  { csd := none, card_status := 0, rca := 0, selected_functions := 0,
    io_size := 0, image_file := none, send_action := .None,
    recv_action := .None }

/-- Embeds `SD::is_mounted`. -/
def SD.is_mounted (sd : SD) : Bool := sd.image_file.isSome

/-- Embeds `SD::mount`.  Host file-system outcomes are passed in explicitly:
`openRes` is the result of `OpenOptions::open(path)` and `metaRes` the result
of reading the opened file's metadata size.  Mirrors the Rust statement order:
the already-mounted check precedes any mutation, and `image_file` is assigned
before the metadata read (so a metadata failure leaves the file attached). -/
def SD.mount (sd : SD) (openRes : Except IOError FileImage)
    (metaRes : FileImage → Except IOError Nat) : SD × Except RuntimeError Unit :=
  if sd.image_file.isSome then (sd, .error .SDAlreadyMounted)
  else
    match openRes with
    | .error e => (sd, .error (.IOError e))
    | .ok f =>
        let sd1 := { sd with image_file := some f }
        match metaRes f with
        | .error e => (sd1, .error (.IOError e))
        | .ok size =>
            ({ sd1 with csd := some (CardSpecific.init_with_size size),
                        send_action := .None, recv_action := .None }, .ok ())

/-- Embeds `SD::unmount`. -/
def SD.unmount (sd : SD) : SD := { sd with image_file := none, csd := none }

/-- Embeds `SD::term_illegal`: set the `ILLEGAL_COMMAND` status bit (bit 22)
and return no response. -/
def SD.term_illegal (sd : SD) : SD × Response :=
  ({ sd with card_status := setBits sd.card_status 22 1 1 }, .RNone)

/-- Embeds `SD::make_request` (src/extdev/sd.rs lines 397-607): the table-driven
command interpreter.  An unmounted card answers nothing.  When the
`app_command` latch (status bit 5) is set the command is dispatched as an
ACMD; `after_read` is applied wherever the Rust code calls
`CardStatus::after_read`, with the pre-clear snapshot used where the Rust code
uses the returned value. -/
def SD.make_request (sd : SD) (cmd arg : Nat) : SD × Response :=
  if !sd.is_mounted then (sd, .RNone)
  else if sd.card_status.testBit 5 then
    match cmd with
    | 6 =>
        if get_current_state sd.card_status = .Transfer then
          let st0 := sd.card_status
          ({ sd with card_status := CardStatus_after_read st0 }, .R1 cmd st0 false)
        else sd.term_illegal
    | 41 =>
        if get_current_state sd.card_status = .Idle then
          let is_sdhc := match sd.csd with
            | some csdd => csdd.is_sdhc
            | none => false
          if arg &&& 0x00ffffff = 0 then
            ({ sd with card_status := CardStatus_after_read sd.card_status },
             .R3 0x00ffff00 is_sdhc false)
          else
            let st1 := set_current_state sd.card_status .Ready
            ({ sd with card_status := CardStatus_after_read st1 },
             .R3 (arg &&& 0x00ffffff) is_sdhc true)
        else sd.term_illegal
    | 51 =>
        if get_current_state sd.card_status = .Transfer then
          let st1 := set_current_state sd.card_status .SendingData
          ({ sd with recv_action := .SCRRead,
                     card_status := CardStatus_after_read st1 },
           .R1 cmd st1 false)
        else sd.term_illegal
    | _ => sd.term_illegal
  else
    match cmd with
    | 0 =>
        let st1 := setBits sd.card_status 0 32 0
        ({ sd with card_status := st1, rca := 0 }, .R1 cmd st1 false)
    | 2 =>
        if get_current_state sd.card_status = .Ready then
          ({ sd with card_status := set_current_state sd.card_status .Identification },
           .R2 CID_ESD)
        else sd.term_illegal
    | 3 =>
        match get_current_state sd.card_status with
        | .Identification | .StandBy =>
            let st1 := set_current_state sd.card_status .StandBy
            ({ sd with card_status := CardStatus_after_read st1, rca := 1 },
             .R6 1 st1)
        | _ => sd.term_illegal
    | 6 =>
        if get_current_state sd.card_status = .Transfer then
          let st1 := set_current_state sd.card_status .SendingData
          ({ sd with recv_action := .FunctionStatus arg,
                     card_status := CardStatus_after_read st1 },
           .R1 cmd st1 false)
        else sd.term_illegal
    | 7 =>
        let rca := arg >>> 16
        match get_current_state sd.card_status with
        | .StandBy =>
            let st1 := if rca = sd.rca
              then set_current_state sd.card_status .Transfer
              else sd.card_status
            ({ sd with card_status := CardStatus_after_read st1 },
             .R1 cmd st1 false)
        | .Transfer | .SendingData =>
            if rca ≠ sd.rca then
              let st1 := set_current_state sd.card_status .StandBy
              ({ sd with card_status := CardStatus_after_read st1 },
               .R1 cmd st1 false)
            else sd.term_illegal
        | _ => sd.term_illegal
    | 8 =>
        if get_current_state sd.card_status = .Idle then
          (sd, .R7 ((arg >>> 8) &&& 0xf) (arg &&& 0xff))
        else sd.term_illegal
    | 9 =>
        let rca := arg >>> 16
        if get_current_state sd.card_status = .StandBy ∧ sd.rca = rca then
          match sd.csd with
          | none => sd.term_illegal
          | some csdd => (sd, .R2 csdd.as_bytes)
        else sd.term_illegal
    | 10 =>
        if sd.rca = (arg >>> 16) &&& 0xffff then
          if get_current_state sd.card_status = .StandBy then
            (sd, .R2 CID_ESD)
          else sd.term_illegal
        else (sd, .RNone)
    | 12 =>
        match get_current_state sd.card_status with
        | .SendingData | .ReceivingData =>
            let st1 := set_current_state sd.card_status .Transfer
            ({ sd with recv_action := .None, send_action := .None,
                       card_status := CardStatus_after_read st1 },
             .R1 cmd st1 false)
        | _ => sd.term_illegal
    | 16 =>
        if get_current_state sd.card_status = .Transfer then
          let st1 := CardStatus_after_read sd.card_status
          if arg = 0 ∨ arg > 512 then
            let st2 := setBits st1 29 1 1
            ({ sd with card_status := st2 }, .R1 cmd st2 false)
          else
            let st2 := setBits st1 29 1 0
            ({ sd with card_status := st2, io_size := arg }, .R1 cmd st2 false)
        else sd.term_illegal
    | 18 =>
        if get_current_state sd.card_status = .Transfer then
          let st1 := set_current_state sd.card_status .SendingData
          ({ sd with recv_action := .FTLRead arg,
                     card_status := CardStatus_after_read st1 },
           .R1 cmd st1 false)
        else sd.term_illegal
    | 55 =>
        let st1 := setBits (CardStatus_after_read sd.card_status) 5 1 1
        ({ sd with card_status := st1 }, .R1 cmd st1 false)
    | _ => sd.term_illegal

/-- Overwrite `bytes.length` bytes of `buf` starting at `off`, the embedding
of a Rust `clone_from_slice`/`fill` into a sub-slice. -/
def listWrite (buf : List Nat) (off : Nat) (bytes : List Nat) : List Nat :=
  buf.take off ++ bytes ++ buf.drop (off + bytes.length)

/-- One step of the per-function-group loop in the `FunctionStatus` arm of
`SD::recv_data`: writes group `group`'s capability word (big-endian) into the
buffer and accumulates the returned selection status. -/
def functionStatusStep (sd : SD) (arg : Nat) (acc : List Nat × Nat)
    (group : Nat) : List Nat × Nat :=
  let fromOffset := (group + 1) * 2
  let fval := CARD_FUNC.getD group 0
  let buf2 := listWrite acc.1 fromOffset [getBits fval 8 8, getBits fval 0 8]
  let grp_shifts := 4 * group
  let new_func := (arg >>> grp_shifts) &&& 0xf
  let ret2 :=
    if new_func = 0xf then
      acc.2 ||| (sd.selected_functions &&& (0xf <<< grp_shifts))
    else if (1 <<< new_func) &&& CARD_FUNC.getD (5 - group) 0 ≠ 0 then
      acc.2 ||| (new_func <<< grp_shifts)
    else
      acc.2 ||| ((0xf <<< grp_shifts) ||| 0x80000000)
  (buf2, ret2)

/-- Embeds `SD::recv_data` (src/extdev/sd.rs lines 615-704), fulfilling the
staged `recv_action` into the caller's buffer (modelled as a byte list whose
length is the Rust slice length).  A sector read seeks to `512 * sector_index`
and `read_exact`s; a failed read (image too short) is logged and swallowed —
the buffer is left as provided — and the staged sector still advances.  The
Rust code `unwrap()`s the backing file handle, so an unmounted card panics:
embedded as `none`.  A call with no staged action only logs. -/
def SD.recv_data (sd : SD) (data : List Nat) : Option (SD × List Nat) :=
  match sd.recv_action with
  | .None => some (sd, data)
  | .FTLRead sector_index =>
      match sd.image_file with
      | none => none
      | some f =>
          let newData :=
            if 512 * sector_index + data.length ≤ f.contents.length then
              (f.contents.drop (512 * sector_index)).take data.length
            else data
          some ({ sd with
                    recv_action := .FTLRead (sector_index + data.length / 512) },
                newData)
  | .FunctionStatus arg =>
      if data.length < 64 then some (sd, data)
      else
        let commit := arg &&& 0x80000000 ≠ 0
        let d1 := listWrite data 0 [0, 200]
        let folded := (List.range 6).foldl (functionStatusStep sd arg) (d1, 0)
        let ret_status := folded.2
        let d3 := listWrite folded.1 14
          [getBits ret_status 16 8, getBits ret_status 8 8, getBits ret_status 0 8]
        let d4 := listWrite d3 17 [0x01]
        let d5 := listWrite d4 18 (List.replicate 12 0)
        let d6 := listWrite d5 30 (List.replicate (data.length - 30) 0)
        let sf := if commit ∧ ret_status &&& 0x80000000 = 0
          then ret_status &&& 0xffffff else sd.selected_functions
        some ({ sd with selected_functions := sf,
                        card_status := set_current_state sd.card_status .Transfer,
                        recv_action := .None }, d6)
  | .SCRRead =>
      if data.length < 8 then some (sd, data)
      else
        some ({ sd with card_status := set_current_state sd.card_status .Transfer,
                        recv_action := .None },
              listWrite data 0 SCR)

/-! ### Interrupt controller state (src/peripherals/aic.rs)

The Rust `AICConfig` holds eight 32-bit level-configuration words, eight
per-priority pending bitmaps and an 8-bit priority-occupied summary.  The two
eight-element arrays are embedded as functions `Nat → Nat` (only indices 0-7
are ever used by the code). -/

/-- Bit-counting table from src/peripherals/aic.rs: `BCS8[m]` is the index of
the lowest set bit of the byte `m` (0 for `m = 0`). -/
def BCS8 : List Nat :=
  [0, 0, 1, 0, 2, 0, 1, 0, 3, 0, 1, 0, 2, 0, 1, 0,
   4, 0, 1, 0, 2, 0, 1, 0, 3, 0, 1, 0, 2, 0, 1, 0,
   5, 0, 1, 0, 2, 0, 1, 0, 3, 0, 1, 0, 2, 0, 1, 0,
   4, 0, 1, 0, 2, 0, 1, 0, 3, 0, 1, 0, 2, 0, 1, 0,
   6, 0, 1, 0, 2, 0, 1, 0, 3, 0, 1, 0, 2, 0, 1, 0,
   4, 0, 1, 0, 2, 0, 1, 0, 3, 0, 1, 0, 2, 0, 1, 0,
   5, 0, 1, 0, 2, 0, 1, 0, 3, 0, 1, 0, 2, 0, 1, 0,
   4, 0, 1, 0, 2, 0, 1, 0, 3, 0, 1, 0, 2, 0, 1, 0,
   7, 0, 1, 0, 2, 0, 1, 0, 3, 0, 1, 0, 2, 0, 1, 0,
   4, 0, 1, 0, 2, 0, 1, 0, 3, 0, 1, 0, 2, 0, 1, 0,
   5, 0, 1, 0, 2, 0, 1, 0, 3, 0, 1, 0, 2, 0, 1, 0,
   4, 0, 1, 0, 2, 0, 1, 0, 3, 0, 1, 0, 2, 0, 1, 0,
   6, 0, 1, 0, 2, 0, 1, 0, 3, 0, 1, 0, 2, 0, 1, 0,
   4, 0, 1, 0, 2, 0, 1, 0, 3, 0, 1, 0, 2, 0, 1, 0,
   5, 0, 1, 0, 2, 0, 1, 0, 3, 0, 1, 0, 2, 0, 1, 0,
   4, 0, 1, 0, 2, 0, 1, 0, 3, 0, 1, 0, 2, 0, 1, 0]

/-- Flag storage for the interrupt controller (`AICConfig`). -/
structure AICConfig where
  levels : Nat → Nat
  status_map : Nat
  step : Bool
  status : Nat → Nat
  enabled : Nat
  current_interrupt : Nat × Nat

/-- The `Default` AIC state: every source at trigger/priority byte `0x47`. -/
def AICConfig.new : AICConfig :=
  { levels := fun _ => 0x47474747, status_map := 0, step := false,
    status := fun _ => 0, enabled := 0, current_interrupt := (0, 0) }

/-- The priority/trigger byte of source `intno` (`AICConfig::get_level`
together with `InterruptNumber::as_offset_shift`): byte `intno % 8` of
levels word `intno / 8`. -/
def AICConfig.get_level (c : AICConfig) (intno : Nat) : Nat :=
  (c.levels (intno / 8) >>> ((intno % 8) * 8)) &&& 0xff

/-- The priority bucket the levels table assigns to source `i` (low three bits
of its priority/trigger byte). -/
def prioOf (levels : Nat → Nat) (i : Nat) : Nat :=
  ((levels (i / 8) >>> ((i % 8) * 8)) &&& 0xff) &&& 0x7

/-- The trigger decision of `AICConfig::check_interrupt`: the source's 2-bit
trigger mode (bits 4-5 of its level byte) selects low-level, high-level,
falling-edge or rising-edge detection over the incoming and latched levels. -/
def trigger_of (level : Nat) (incoming latched : Bool) : Bool :=
  let tm := level &&& 0x30
  if tm = 0x00 then !incoming
  else if tm = 0x10 then incoming
  else if tm = 0x20 then incoming != latched && !incoming
  else incoming != latched && incoming

/-- Embeds `AICConfig::check_interrupt` (src/peripherals/aic.rs lines
110-136): a masked source (its `enabled` bit set) never latches; otherwise the
source's trigger mode decides from the incoming and latched levels; a latch
sets the source's bit in its priority's pending bitmap and that priority's bit
in the summary.  Returns the new state and whether it fired. -/
def AICConfig.check_interrupt (c : AICConfig) (intno : Nat)
    (incoming latched : Bool) : AICConfig × Bool :=
  let mask := 1 <<< intno
  if c.enabled &&& mask ≠ 0 then (c, false)
  else
    let level := c.get_level intno
    if trigger_of level incoming latched then
      let prio := level &&& 0x7
      ({ c with status := updAt c.status prio (c.status prio ||| mask),
                status_map := c.status_map ||| (1 <<< prio) }, true)
    else (c, false)

/-- Embeds `AICConfig::apply_enable_mask` (OR into the mask register; a set
bit disables the source). -/
def AICConfig.apply_enable_mask (c : AICConfig) (mask : Nat) : AICConfig :=
  { c with enabled := c.enabled ||| mask }

/-- Embeds `AICConfig::apply_disable_mask` (`enabled &= !mask` at `u32`). -/
def AICConfig.apply_disable_mask (c : AICConfig) (mask : Nat) : AICConfig :=
  { c with enabled := c.enabled &&& u32_not mask }

/-- Embeds `AICConfig::get_joint_status`: OR of the eight per-priority pending
bitmaps, in the array's fold order. -/
def AICConfig.get_joint_status (c : AICConfig) : Nat :=
  (List.range 8).foldl (fun acc e => acc ||| c.status e) 0

/-- The loop body of `AICConfig::set_joint_status`, processing joint-status
bits `0, 1, ..., n-1` in ascending order into a fresh pending array and a
fresh summary: each set bit `i` lands in the bucket the levels table assigns
to source `i`. -/
def setJointLoop (levels : Nat → Nat) (status : Nat) : Nat → (Nat → Nat) × Nat
  | 0 => (fun _ => 0, 0)
  | n + 1 =>
      let acc := setJointLoop levels status n
      let mask := 1 <<< n
      if status &&& mask ≠ 0 then
        let prio := prioOf levels n
        (updAt acc.1 prio (acc.1 prio ||| mask), acc.2 ||| (1 <<< prio))
      else acc

/-- Embeds `AICConfig::set_joint_status` (src/peripherals/aic.rs lines
156-173): inflate a joint 32-bit bitmap through the current levels table,
replacing the pending bitmaps and re-deriving the summary from scratch. -/
def AICConfig.set_joint_status (c : AICConfig) (status : Nat) : AICConfig :=
  let acc := setJointLoop c.levels status 32
  { c with status := acc.1, status_map := acc.2 }

/-- Embeds `AICConfig::apply_status_set_mask`. -/
def AICConfig.apply_status_set_mask (c : AICConfig) (mask : Nat) : AICConfig :=
  c.set_joint_status (c.get_joint_status ||| mask)

/-- Embeds `AICConfig::apply_status_clear_mask` (`js & !mask` at `u32`). -/
def AICConfig.apply_status_clear_mask (c : AICConfig) (mask : Nat) : AICConfig :=
  c.set_joint_status (c.get_joint_status &&& u32_not mask)

/-- The bit scan in `AICConfig::next_interrupt`: `num` starts at 0 and the
loop `for i in 1..32` stops at the first set bit — bit 0 is never examined. -/
def firstBitIn (x : Nat) : List Nat → Nat
  | [] => 0
  | i :: rest => if x &&& (1 <<< i) ≠ 0 then i else firstBitIn x rest

/-- Embeds `AICConfig::next_interrupt` (src/peripherals/aic.rs lines 187-209):
look up the lowest occupied priority through `BCS8`, then scan that priority's
pending bitmap from bit 1 upward.  The empty-summary and stale-summary error
paths return `(0, 0)` resp. `(prio, 0)` after logging. -/
def AICConfig.next_interrupt (c : AICConfig) : Nat × Nat :=
  if c.status_map = 0 then (0, 0)
  else
    let next_pending_prio := BCS8.getD c.status_map 0
    let next_pending := c.status next_pending_prio
    if next_pending = 0 then (next_pending_prio, 0)
    else (next_pending_prio, firstBitIn next_pending (List.range' 1 31))

/-- Embeds `AICConfig::pop_next_interrupt` (src/peripherals/aic.rs lines
211-217): select as `next_interrupt`, record the pair as in service, and clear
that pending bit (`status & !(1 << num)` at `u32`).  The summary `status_map`
is not touched. -/
def AICConfig.pop_next_interrupt (c : AICConfig) : AICConfig × Nat × Nat :=
  let pair := c.next_interrupt
  ({ c with current_interrupt := pair,
            status := updAt c.status pair.1
              (c.status pair.1 &&& u32_not (1 <<< pair.2)) }, pair)

/-- The priority-occupied invariant from the specification: for each of the 8
priorities, the summary bit is set exactly when that priority's pending bitmap
is nonzero. -/
@[reducible]
def AICInv (c : AICConfig) : Prop :=
  ∀ p, p < 8 → (c.status_map.testBit p = true ↔ c.status p ≠ 0)

/-- Pending state consistent with the levels table: every pending bitmap is a
`u32` (as in the Rust state), and every set bit of every pending bitmap lies
in the bucket the levels table assigns to that source (specification §8,
round-trip precondition). -/
@[reducible]
def AICConsistent (c : AICConfig) : Prop :=
  (∀ p, p < 8 → c.status p < 2 ^ 32) ∧
  (∀ p, p < 8 → ∀ b, b < 32 →
    (c.status p).testBit b = true → prioOf c.levels b = p)

/-! ### SD host controller / DMA bridge (src/peripherals/sic.rs)

The `bit_field` register structs are embedded as records of their named
fields (each `B1` field a `Nat` holding 0 or 1, wider fields a `Nat`); the
MMIO pack/unpack of whole registers is not needed by any claim.  The
`Into<(u32, u32)>` packings of the typed responses into the two hardware
response registers are not among the provided sources, so they are passed in
as explicit parameters (`RespPack`). -/

/-- The SD command register (`SDCR`). -/
structure SDCR where
  co_en : Nat
  ri_en : Nat
  di_en : Nat
  do_en : Nat
  r2_en : Nat
  clk74_oe : Nat
  clk8_oe : Nat
  clk_keep : Nat
  cmd_code : Nat
  swrst : Nat
  dbw : Nat
  blkcnt : Nat
  sdnwr : Nat
  clk_keep2 : Nat
  sdport : Nat
  clk_keep1 : Nat
  deriving DecidableEq, Repr

/-- The SD interrupt-enable register (`SDIRQEnable`). -/
structure SDIRQEnable where
  block_xfer_done : Nat
  crc_error : Nat
  card_detect : Nat
  sdio : Nat
  timeout_cmd : Nat
  timeout_dat : Nat
  wakeup : Nat
  r1b : Nat
  card_detect_mode : Nat
  deriving DecidableEq, Repr

/-- The SD interrupt/status register (`SDIRQStatus`). -/
structure SDIRQStatus where
  block_xfer_done : Nat
  crc_error : Nat
  crc_ok_cmd : Nat
  crc_ok_dat : Nat
  available : Nat
  card_detect_changed : Nat
  sdio : Nat
  timeout_cmd : Nat
  timeout_dat : Nat
  card_detect : Nat
  data1 : Nat
  r1b : Nat
  deriving DecidableEq, Repr

/-- The DMA interrupt flag registers (`DMAIRQFlags`). -/
structure DMAIRQFlags where
  target_abort : Nat
  wrong_eot : Nat
  deriving DecidableEq, Repr

/-- The DMA control register (`DMAControl`). -/
structure DMAControl where
  enable : Nat
  reset : Nat
  scatter_gather_mode : Nat
  busy : Nat
  deriving DecidableEq, Repr

/-- The FMI control register (`FMIControl`). -/
structure FMIControl where
  reset : Nat
  sd_mode : Nat
  nand_mode : Nat
  deriving DecidableEq, Repr

/-- The host-controller state (`SICConfig`); the 1 KiB FIFO is a byte map. -/
structure SICConfig where
  dma_control : DMAControl
  dma_dest_addr : Nat
  dma_irq_enable : DMAIRQFlags
  dma_irq_status : DMAIRQFlags
  dma_count : Nat
  fmi_control : FMIControl
  sd_arg : Nat
  sd_response : Nat × Nat
  sd_control : SDCR
  sd_irq_enable : SDIRQEnable
  sd_irq : SDIRQStatus
  sd_io_size : Nat
  fifo : Nat → Nat
  fmi_irq_enable : Bool
  fmi_irq_status : Bool

/-- The peripheral device context (`Device` in src/device.rs): the two card
models addressed by the host controller's port select. -/
structure Device where
  internal_sd : SD
  external_sd : SD
  deriving DecidableEq, Repr

/-- Response-register packing laws, one per short-response type.  The
`Into<(u32, u32)>` impls these embed are not among the provided sources; the
claims settled here do not depend on their values. -/
structure RespPack where
  r1 : Nat → Nat → Bool → Nat × Nat
  r3 : Nat → Bool → Bool → Nat × Nat
  r6 : Nat → Nat → Nat × Nat
  r7 : Nat → Nat → Nat × Nat

/-- Embeds `sic::check_reset`: service the three reset request bits, clearing
each; an SD software reset also raises the `available` flag.  Returns the new
state and whether any reset was serviced. -/
def check_reset (sic : SICConfig) : SICConfig × Bool :=
  let hasDma := sic.dma_control.reset = 1
  let sic1 := if hasDma
    then { sic with dma_control := { sic.dma_control with reset := 0 } }
    else sic
  let hasFmi := sic1.fmi_control.reset = 1
  let sic2 := if hasFmi
    then { sic1 with fmi_control := { sic1.fmi_control with reset := 0 } }
    else sic1
  let hasSd := sic2.sd_control.swrst = 1
  let sic3 := if hasSd
    then { sic2 with sd_irq := { sic2.sd_irq with available := 1 },
                     sd_control := { sic2.sd_control with swrst := 0 } }
    else sic2
  (sic3, hasDma || hasFmi || hasSd)

/-- Embeds `sic::check_delay_condition`: the two clock-delay one-shots. -/
def check_delay_condition (sic : SICConfig) : SICConfig × Bool :=
  if sic.sd_control.clk74_oe = 1 then
    ({ sic with sd_control := { sic.sd_control with clk74_oe := 0 } }, true)
  else if sic.sd_control.clk8_oe = 1 then
    ({ sic with sd_control := { sic.sd_control with clk8_oe := 0 },
                sd_irq := { sic.sd_irq with available := 1 } }, true)
  else (sic, false)

/-- Result of the command phase of `sic::tick`: updated controller and card
states, the `skip_data` flag and the number of `post_interrupt` calls. -/
structure CmdPhaseResult where
  sic : SICConfig
  dev : Device
  skip_data : Bool
  posts : Nat

/-- The command phase of `sic::tick` (the `if command_enable` block): resolve
the addressed port, dispatch the staged command to the card, translate the
response (clearing the matching one-shot enable and raising `crc_ok_cmd`), or
on `RNone` raise `timeout_cmd`, cancel a requested data phase (raising
`timeout_dat`) and post an interrupt if either timeout interrupt is enabled.
`co_en` is cleared once a mapped card has been addressed; an unmapped port
only logs. -/
def sicCmdPhase (pack : RespPack) (sic : SICConfig) (dev : Device) :
    CmdPhaseResult :=
  let ctl := sic.sd_control
  if ctl.co_en = 1 then
    let cardOp : Option (SD × (SD → Device → Device)) :=
      match ctl.sdport with
      | 0 => some (dev.internal_sd, fun sd d => { d with internal_sd := sd })
      | 2 => some (dev.external_sd, fun sd d => { d with external_sd := sd })
      | _ => none
    match cardOp with
    | none => { sic := sic, dev := dev, skip_data := false, posts := 0 }
    | some (card, putCard) =>
        let reqResult := card.make_request ctl.cmd_code sic.sd_arg
        let dev1 := putCard reqResult.1 dev
        match reqResult.2 with
        | .R1 c st busy =>
            { sic := { sic with
                         sd_response := pack.r1 c st busy,
                         sd_control := { ctl with ri_en := 0, co_en := 0 },
                         sd_irq := { sic.sd_irq with crc_ok_cmd := 1 } },
              dev := dev1, skip_data := false, posts := 0 }
        | .R2 cid_csd =>
            let fifo1 := updAt sic.fifo 0 0b00111111
            let fifo2 := (List.range cid_csd.length).foldl
              (fun f i => updAt f (i + 1) (cid_csd.getD i 0)) fifo1
            { sic := { sic with
                         fifo := fifo2,
                         sd_control := { ctl with r2_en := 0, co_en := 0 },
                         sd_irq := { sic.sd_irq with crc_ok_cmd := 1 } },
              dev := dev1, skip_data := false, posts := 0 }
        | .R3 ocr is_sdhc power_up =>
            { sic := { sic with
                         sd_response := pack.r3 ocr is_sdhc power_up,
                         sd_control := { ctl with ri_en := 0, co_en := 0 },
                         sd_irq := { sic.sd_irq with crc_ok_cmd := 1 } },
              dev := dev1, skip_data := false, posts := 0 }
        | .R6 rca st =>
            { sic := { sic with
                         sd_response := pack.r6 rca st,
                         sd_control := { ctl with ri_en := 0, co_en := 0 },
                         sd_irq := { sic.sd_irq with crc_ok_cmd := 1 } },
              dev := dev1, skip_data := false, posts := 0 }
        | .R7 voltage check =>
            { sic := { sic with
                         sd_response := pack.r7 voltage check,
                         sd_control := { ctl with ri_en := 0, co_en := 0 },
                         sd_irq := { sic.sd_irq with crc_ok_cmd := 1 } },
              dev := dev1, skip_data := false, posts := 0 }
        | .RNone =>
            let has_data := ctl.di_en = 1 || ctl.do_en = 1
            let ctl1 := if has_data then { ctl with di_en := 0, do_en := 0 } else ctl
            let irq1 := { sic.sd_irq with timeout_cmd := 1 }
            let irq2 := if has_data then { irq1 with timeout_dat := 1 } else irq1
            let doPost := sic.sd_irq_enable.timeout_cmd = 1
              || (has_data && sic.sd_irq_enable.timeout_dat = 1)
            { sic := { sic with
                         sd_control := { ctl1 with co_en := 0 },
                         sd_irq := irq2 },
              dev := dev1, skip_data := true,
              posts := if doPost then 1 else 0 }
  else { sic := sic, dev := dev, skip_data := false, posts := 0 }

/-- Embeds `sic::tick` (src/peripherals/sic.rs lines 297-432).  `clkEnabled`
is the SIC bit of the AHB clock register; `memWriteOk` the outcome of the
guest-memory DMA write.  `post_interrupt` calls are counted in the returned
`Nat` (each such call latches the SIC interrupt line into the AIC and requests
a `Tick` stop).  The untranslated data-out phase is Rust `todo!()`, embedded
as `none`; so is a card panic inside `recv_data`.  The command phase reads
`di_en`/`do_en`/`sdport` once up front, as the Rust code does. -/
def sic_tick (clkEnabled memWriteOk : Bool) (pack : RespPack)
    (sic : SICConfig) (dev : Device) : Option (SICConfig × Device × Nat) :=
  if !clkEnabled then some (sic, dev, 0)
  else
    let r := check_reset sic
    if r.2 then some (r.1, dev, 0)
    else
      let d := check_delay_condition r.1
      if d.2 then some (d.1, dev, 0)
      else
        let sic0 := d.1
        let ctl := sic0.sd_control
        let sd_port := ctl.sdport
        let has_data_in := ctl.di_en = 1
        let has_data_out := ctl.do_en = 1
        let cp := sicCmdPhase pack sic0 dev
        let afterDataIn : Option (SICConfig × Device × Nat) :=
          if !cp.skip_data && has_data_in then
            let cardOp : Option (SD × (SD → Device → Device)) :=
              match sd_port with
              | 0 => some (cp.dev.internal_sd,
                           fun sd dv => { dv with internal_sd := sd })
              | 2 => some (cp.dev.external_sd,
                           fun sd dv => { dv with external_sd := sd })
              | _ => none
            match cardOp with
            | none =>
                some ({ cp.sic with
                          sd_control := { cp.sic.sd_control with di_en := 0 } },
                      cp.dev, cp.posts)
            | some (card, putCard) =>
                let size := cp.sic.sd_io_size
                let mult := cp.sic.sd_control.blkcnt
                let size_final := if mult = 0 then size else size * mult
                match card.recv_data (List.replicate size_final 0) with
                | none => none
                | some (card2, _) =>
                    let dev2 := putCard card2 cp.dev
                    let sic2 :=
                      if memWriteOk then
                        { cp.sic with
                            dma_count := cp.sic.dma_count + size_final,
                            sd_irq := { cp.sic.sd_irq with
                                          crc_ok_dat := 1,
                                          block_xfer_done := 1 },
                            dma_dest_addr := cp.sic.dma_dest_addr + size_final }
                      else
                        { cp.sic with
                            dma_irq_status :=
                              { cp.sic.dma_irq_status with target_abort := 1 },
                            sd_irq := { cp.sic.sd_irq with crc_ok_dat := 0 } }
                    let posts2 :=
                      if memWriteOk then
                        if cp.sic.sd_irq_enable.block_xfer_done = 1
                          then cp.posts + 1 else cp.posts
                      else
                        if cp.sic.dma_irq_enable.target_abort = 1
                          then cp.posts + 1 else cp.posts
                    some ({ sic2 with
                              sd_control := { sic2.sd_control with
                                                blkcnt := 0, di_en := 0 } },
                          dev2, posts2)
          else some (cp.sic, cp.dev, cp.posts)
        match afterDataIn with
        | none => none
        | some res =>
            if !cp.skip_data && has_data_out then none
            else some res

/-! ### Concrete states used by the counterexamples and witnesses below -/

/-- An unmounted card with nonzero ancillary state, used against C10. -/
def sdNoMount : SD :=
  { csd := none, card_status := 0x200, rca := 1, selected_functions := 3,
    io_size := 512, image_file := none, send_action := .None,
    recv_action := .FTLRead 4 }

/-- A mounted card whose `app_command` latch (status bit 5) is set. -/
def sdGateC5 : SD :=
  { csd := none, card_status := 0x20, rca := 1, selected_functions := 0,
    io_size := 0, image_file := some ⟨[]⟩, send_action := .None,
    recv_action := .None }

/-- A mounted card in `Ready` state (status bits 9-12 = 1) with a published
relative address, used to exercise CMD0. -/
def sdReadyC5 : SD :=
  { csd := none, card_status := 0x200, rca := 1, selected_functions := 0,
    io_size := 0, image_file := some ⟨[]⟩, send_action := .None,
    recv_action := .None }

/-- A card mounted on an empty backing image with a staged sector read: any
`recv_data` into a nonempty buffer must fail its `read_exact`. -/
def sdShortC9 : SD :=
  { csd := none, card_status := 0, rca := 0, selected_functions := 0,
    io_size := 0, image_file := some ⟨[]⟩, send_action := .None,
    recv_action := .FTLRead 0 }

/-- A 512-byte zeroed transfer buffer. -/
def bufC9 : List Nat := List.replicate 512 0

/-- An AIC state satisfying the priority-occupied invariant, with a single
pending source (source 1, priority 7 under the default levels table). -/
def cPopC2 : AICConfig :=
  { levels := fun _ => 0x47474747, status_map := 0x80, step := false,
    status := fun p => if p = 7 then 2 else 0, enabled := 0,
    current_interrupt := (0, 0) }

/-- A consistent AIC state with two pending sources (1 and 2), both of
priority 7 under the default levels table. -/
def cRoundC3 : AICConfig :=
  { levels := fun _ => 0x47474747, status_map := 0x80, step := false,
    status := fun p => if p = 7 then 0b110 else 0, enabled := 0,
    current_interrupt := (0, 0) }

/-- An AIC state whose only occupied priority has bits 0 and 2 pending (set
reachable through a joint-status write, since the levels table maps every
source to priority 7). -/
def cScanC4 : AICConfig :=
  { levels := fun _ => 0x47474747, status_map := 0x80, step := false,
    status := fun p => if p = 7 then 5 else 0, enabled := 0,
    current_interrupt := (0, 0) }

/-- A host-controller state with a command staged (`co_en` set, port 0) and a
data-in phase requested. -/
def sicCmdC8 : SICConfig :=
  { dma_control := { enable := 0, reset := 0, scatter_gather_mode := 0, busy := 0 },
    dma_dest_addr := 0x100, dma_irq_enable := { target_abort := 0, wrong_eot := 0 },
    dma_irq_status := { target_abort := 0, wrong_eot := 0 }, dma_count := 0,
    fmi_control := { reset := 0, sd_mode := 1, nand_mode := 0 }, sd_arg := 0,
    sd_response := (0, 0),
    sd_control := { co_en := 1, ri_en := 1, di_en := 1, do_en := 0, r2_en := 0,
                    clk74_oe := 0, clk8_oe := 0, clk_keep := 0, cmd_code := 18,
                    swrst := 0, dbw := 0, blkcnt := 0, sdnwr := 0, clk_keep2 := 0,
                    sdport := 0, clk_keep1 := 0 },
    sd_irq_enable := { block_xfer_done := 0, crc_error := 0, card_detect := 0,
                       sdio := 0, timeout_cmd := 1, timeout_dat := 0, wakeup := 0,
                       r1b := 0, card_detect_mode := 0 },
    sd_irq := { block_xfer_done := 0, crc_error := 0, crc_ok_cmd := 0,
                crc_ok_dat := 0, available := 0, card_detect_changed := 0,
                sdio := 0, timeout_cmd := 0, timeout_dat := 0, card_detect := 0,
                data1 := 0, r1b := 0 },
    sd_io_size := 512, fifo := fun _ => 0, fmi_irq_enable := false,
    fmi_irq_status := false }

/-- A device context with two freshly constructed (unmounted) cards: any
command issued to either card times out with `RNone`. -/
def devC8 : Device := { internal_sd := SD.new, external_sd := SD.new }

/-- A trivial response packing, standing in for the out-of-tree
`Into<(u32, u32)>` impls where their value is irrelevant. -/
def packZero : RespPack :=
  { r1 := fun _ _ _ => (0, 0), r3 := fun _ _ _ => (0, 0),
    r6 := fun _ _ => (0, 0), r7 := fun _ _ => (0, 0) }

/-! ### Scheduler theorems (C1, C6) -/

theorem request_stop_quit_absorbs (d : QuitDetail) (r : StopReason) :
    request_stop (.Quit d) r = .Quit d := by
  cases r <;> simp [request_stop, StopReason.is_run, StopReason.is_quit]

/-- Claim C6: within one instruction boundary, once the stored stop reason is
`Quit(detail)`, no sequence of `request_stop` calls with lower-priority
reasons (`Tick`, `FrameStep`, `SVC` or `Run`) changes it: the `Quit` reason
and its detail survive until dispatch consumes them. -/
theorem lle_C6_theorem (d : QuitDetail) (rs : List StopReason)
    (h : ∀ r ∈ rs, r = .Tick ∨ r = .FrameStep ∨ r = .SVC ∨ r = .Run) :
    rs.foldl request_stop (.Quit d) = .Quit d := by
  induction rs with
  | nil => rfl
  | cons r rs ih =>
      simp only [List.foldl_cons, request_stop_quit_absorbs]
      exact ih fun x hx => h x (List.mem_cons_of_mem r hx)

theorem lle_C6_witness :
    (∀ r ∈ [StopReason.Tick, .FrameStep, .SVC, .Run],
        r = .Tick ∨ r = .FrameStep ∨ r = .SVC ∨ r = .Run) ∧
    [StopReason.Tick, .FrameStep, .SVC, .Run].foldl request_stop
        (.Quit .CPUHalt) = .Quit .CPUHalt :=
  ⟨by decide, lle_C6_theorem .CPUHalt _ (by decide)⟩

/-- Claim C1, counterexample: requesting `Tick` and then `FrameStep` at the
same instruction boundary leaves only `Tick` stored (the stop reason is a
single value, not a set), and the one dispatch pass of `Device::tick` then
services only the device ticks — the frame is never presented. -/
theorem lle_C1_counterexample :
    request_stop (request_stop .Run .Tick) .FrameStep = .Tick ∧
    (Device_tick true [] (request_stop (request_stop .Run .Tick) .FrameStep)).2.2
      = [.DeviceTicks] ∧
    TickAction.FramePresent ∉
      (Device_tick true [] (request_stop (request_stop .Run .Tick) .FrameStep)).2.2 := by
  decide

/-- Claim C1, amended: the stop reason is single-valued.  When both `Tick` and
`FrameStep` are requested at one instruction boundary, the first request wins
and the later one is discarded; the single dispatch pass of `Device::tick`
services only the action of the stored reason, and the stop reason is `Run`
(the empty request) when CPU execution resumes. -/
theorem lle_C1_theorem (r1 r2 : StopReason) (renderOk : Bool)
    (h1 : r1 = .Tick ∨ r1 = .FrameStep) (h2 : r2 = .Tick ∨ r2 = .FrameStep) :
    request_stop (request_stop .Run r1) r2 = r1 ∧
    (Device_tick renderOk [] (request_stop (request_stop .Run r1) r2)).2.1 = .Run ∧
    (Device_tick renderOk [] (request_stop (request_stop .Run r1) r2)).2.2 =
      [if r1 = .Tick then TickAction.DeviceTicks else .FramePresent] := by
  rcases h1 with rfl | rfl <;> rcases h2 with rfl | rfl <;>
    cases renderOk <;> decide

theorem lle_C1_witness :
    ((StopReason.Tick = .Tick ∨ StopReason.Tick = .FrameStep) ∧
     (StopReason.FrameStep = .Tick ∨ StopReason.FrameStep = .FrameStep)) ∧
    (request_stop (request_stop .Run .Tick) .FrameStep = .Tick ∧
     (Device_tick true [] (request_stop (request_stop .Run .Tick) .FrameStep)).2.1 = .Run ∧
     (Device_tick true [] (request_stop (request_stop .Run .Tick) .FrameStep)).2.2 =
       [if StopReason.Tick = .Tick then TickAction.DeviceTicks else .FramePresent]) :=
  ⟨⟨Or.inl rfl, Or.inr rfl⟩,
   lle_C1_theorem .Tick .FrameStep true (Or.inl rfl) (Or.inr rfl)⟩

/-! ### Exception vectoring theorem (C7) -/

theorem cpsr_mask_testBit_lo (i : Nat) (hi : i < 6) :
    (2 ^ 64 - 64 : Nat).testBit i = false := by
  interval_cases i <;> decide

theorem masked_or_mod32 (x c : Nat) :
    ((x &&& (2 ^ 64 - 64)) ||| c) % 32 = c % 32 := by
  have h32 : (32 : Nat) = 2 ^ 5 := rfl
  rw [h32]
  apply Nat.eq_of_testBit_eq
  intro i
  rw [Nat.testBit_mod_two_pow, Nat.testBit_mod_two_pow, Nat.testBit_lor,
    Nat.testBit_land]
  by_cases hi : i < 5
  · rw [cpsr_mask_testBit_lo i (by omega)]
    simp [hi]
  · simp [hi]

/-- Claim C7: for every delivered exception kind, `call_exception_handler`
saves the previous CPSR into SPSR, switches the CPSR mode bits to the kind's
target mode, sets the PC to `0xff000000` plus the kind's fixed vector offset,
and writes a link register equal to the resuming/faulting PC adjusted per
kind.  Per the comments in src/exception.rs the handed-in PC is the resume
point: the supervisor-call PC already names the next instruction (so its
offset is 0), while undefined-instruction, IRQ and FIQ add 4 to reach the next
instruction, prefetch abort is the faulting instruction + 4 and data abort the
faulting instruction + 8. -/
theorem lle_C7_theorem (s : CPUState) (t : ExceptionType) :
    (call_exception_handler s t).spsr = s.cpsr ∧
    (call_exception_handler s t).pc = 0xff000000 +
      (match t with
       | .Reset => 0x0
       | .UndefinedInstruction => 0x4
       | .SupervisorCall => 0x8
       | .PrefetchAbort => 0xc
       | .DataAbort => 0x10
       | .IRQ => 0x18
       | .FIQ => 0x1c) ∧
    (call_exception_handler s t).cpsr % 32 =
      (match t with
       | .Reset => 0x13
       | .UndefinedInstruction => 0x1b
       | .SupervisorCall => 0x13
       | .PrefetchAbort => 0x17
       | .DataAbort => 0x17
       | .IRQ => 0x12
       | .FIQ => 0x11) ∧
    (call_exception_handler s t).lr =
      (match t with
       | .Reset => s.pc
       | .UndefinedInstruction => s.pc + 4
       | .SupervisorCall => s.pc
       | .PrefetchAbort => s.pc + 4
       | .DataAbort => s.pc + 8
       | .IRQ => s.pc + 4
       | .FIQ => s.pc + 4) := by
  cases t <;>
    refine ⟨rfl, rfl, ?_, rfl⟩ <;>
    · rw [show (call_exception_handler s _).cpsr =
        ((s.cpsr &&& (2 ^ 64 - 64)) ||| _) from rfl, masked_or_mod32]
      decide

/-! ### SD card theorems (C5, C9, C10) -/

/-- Claim C10: for every command code and argument, `make_request` on an
unmounted card returns `RNone` and leaves the whole card state unchanged. -/
theorem lle_C10_theorem (sd : SD) (cmd arg : Nat)
    (h : sd.image_file = none) : sd.make_request cmd arg = (sd, .RNone) := by
  unfold SD.make_request
  rw [show sd.is_mounted = false from by simp [SD.is_mounted, h]]
  rfl

theorem lle_C10_witness :
    sdNoMount.image_file = none ∧
    sdNoMount.make_request 9 0x12345678 = (sdNoMount, .RNone) :=
  ⟨rfl, lle_C10_theorem sdNoMount 9 0x12345678 rfl⟩

/-- Claim C5, counterexample: on a mounted card whose `app_command` latch
(status bit 5) is set, CMD0 is routed to the application-command table, is
not recognised there, and is rejected as illegal: the status register keeps
its old bits (gaining the illegal-command bit 22), the relative address stays
1, and the response is `RNone`, not a short status response. -/
theorem lle_C5_counterexample :
    sdGateC5.is_mounted = true ∧
    sdGateC5.make_request 0 0 =
      ({ sdGateC5 with card_status := 0x400020 }, .RNone) := by
  decide

theorem setBits_all32_zero {r : Nat} (h : r < 2 ^ 32) : setBits r 0 32 0 = 0 := by
  unfold setBits
  simp only [Nat.shiftRight_eq_div_pow, Nat.pow_zero, Nat.mod_one,
    Nat.zero_add, Nat.zero_mod, Nat.zero_mul, Nat.add_zero, Nat.mul_one]
  simp only [Nat.div_eq_of_lt h, Nat.zero_mul]

/-- Claim C5, amended: for every mounted card whose application-command latch
(status bit 5) is clear — CMD0 issued right after CMD55 is instead dispatched
as an unhandled ACMD and rejected — `make_request` with command code 0 clears
the entire 32-bit card status register (hence the state field reads `Idle`),
resets the relative card address to 0, and returns a short (R1) status
response. -/
theorem lle_C5_theorem (sd : SD) (arg : Nat)
    (hm : sd.is_mounted = true) (hlatch : sd.card_status.testBit 5 = false)
    (hu32 : sd.card_status < 2 ^ 32) :
    sd.make_request 0 arg = ({ sd with card_status := 0, rca := 0 }, .R1 0 0 false) ∧
    get_current_state 0 = .Idle := by
  refine ⟨?_, rfl⟩
  unfold SD.make_request
  rw [hm, hlatch, setBits_all32_zero hu32]
  rfl

theorem lle_C5_witness :
    (sdReadyC5.is_mounted = true ∧ sdReadyC5.card_status.testBit 5 = false ∧
     sdReadyC5.card_status < 2 ^ 32) ∧
    (sdReadyC5.make_request 0 7 =
       ({ sdReadyC5 with card_status := 0, rca := 0 }, .R1 0 0 false) ∧
     get_current_state 0 = .Idle) :=
  ⟨⟨rfl, by decide, by decide⟩,
   lle_C5_theorem sdReadyC5 7 rfl (by decide) (by decide)⟩

/-- Claim C9, counterexample: a sector read staged past the end of the backing
image — here any read on an empty image — fails its `read_exact`, yet
`recv_data` returns normally: no error value is produced (the helper's return
carries no error channel), the buffer is left untouched, and the staged sector
index still advances.  The failure is logged and swallowed, not propagated as
a typed error result. -/
theorem lle_C9_counterexample :
    sdShortC9.image_file = some ⟨[]⟩ ∧ bufC9.length = 512 ∧
    sdShortC9.recv_data bufC9 =
      some ({ sdShortC9 with recv_action := .FTLRead 1 }, bufC9) := by
  refine ⟨rfl, rfl, ?_⟩
  rfl

/-- Claim C9, amended: `mount` on an already-mounted card returns the typed
`SDAlreadyMounted` error and leaves the card state unchanged; an image-open
failure propagates from `mount` as a typed `IOError` with the state unchanged;
a metadata-read failure propagates as a typed `IOError` (with the opened file
already attached, per the code's statement order).  The data-phase helper
`recv_data`, however, does not propagate file I/O failures: a sector read past
the end of the image completes normally, leaving the buffer as provided and
advancing the staged sector index.  None of these paths panics. -/
theorem lle_C9_theorem :
    (∀ (sd : SD) (o : Except IOError FileImage)
       (m : FileImage → Except IOError Nat),
       sd.image_file.isSome = true →
       sd.mount o m = (sd, .error .SDAlreadyMounted)) ∧
    (∀ (sd : SD) (e : IOError) (m : FileImage → Except IOError Nat),
       sd.image_file = none →
       sd.mount (.error e) m = (sd, .error (.IOError e))) ∧
    (∀ (sd : SD) (f : FileImage) (e : IOError)
       (m : FileImage → Except IOError Nat),
       sd.image_file = none → m f = .error e →
       sd.mount (.ok f) m =
         ({ sd with image_file := some f }, .error (.IOError e))) ∧
    (∀ (sd : SD) (f : FileImage) (k : Nat) (data : List Nat),
       sd.image_file = some f → sd.recv_action = .FTLRead k →
       f.contents.length < 512 * k + data.length →
       sd.recv_data data =
         some ({ sd with recv_action := .FTLRead (k + data.length / 512) },
               data)) := by
  refine ⟨?_, ?_, ?_, ?_⟩
  · intro sd o m h
    simp [SD.mount, h]
  · intro sd e m h
    simp [SD.mount, h]
  · intro sd f e m h hm
    simp [SD.mount, h, hm]
  · intro sd f k data hf ha hlen
    simp only [SD.recv_data, ha, hf]
    rw [if_neg (by omega)]

theorem lle_C9_witness :
    (sdGateC5.image_file.isSome = true ∧
     sdGateC5.mount (.ok ⟨[]⟩) (fun f => .ok f.contents.length) =
       (sdGateC5, .error .SDAlreadyMounted)) ∧
    (SD.new.image_file = none ∧
     SD.new.mount (.error ⟨7⟩) (fun f => .ok f.contents.length) =
       (SD.new, .error (.IOError ⟨7⟩))) ∧
    (SD.new.image_file = none ∧
     SD.new.mount (.ok ⟨[]⟩) (fun _ => .error ⟨9⟩) =
       ({ SD.new with image_file := some ⟨[]⟩ }, .error (.IOError ⟨9⟩))) ∧
    (sdShortC9.image_file = some ⟨[]⟩ ∧ sdShortC9.recv_action = .FTLRead 0 ∧
     (FileImage.mk []).contents.length < 512 * 0 + bufC9.length ∧
     sdShortC9.recv_data bufC9 =
       some ({ sdShortC9 with recv_action := .FTLRead (0 + bufC9.length / 512) },
             bufC9)) :=
  ⟨⟨rfl, lle_C9_theorem.1 sdGateC5 _ _ rfl⟩,
   ⟨rfl, lle_C9_theorem.2.1 SD.new ⟨7⟩ _ rfl⟩,
   ⟨rfl, lle_C9_theorem.2.2.1 SD.new ⟨[]⟩ ⟨9⟩ _ rfl rfl⟩,
   ⟨rfl, rfl, by decide,
    lle_C9_theorem.2.2.2 sdShortC9 ⟨[]⟩ 0 bufC9 rfl rfl (by decide)⟩⟩

/-! ### Interrupt controller theorems (C2, C3, C4) -/

theorem updAt_self (f : Nat → Nat) (i v : Nat) : updAt f i v i = v := by
  simp [updAt]

theorem updAt_ne (f : Nat → Nat) (i v j : Nat) (h : j ≠ i) :
    updAt f i v j = f j := by
  simp [updAt, h]

theorem testBit_lor_single (x i b : Nat) :
    (x ||| (1 <<< i)).testBit b = (x.testBit b || decide (i = b)) := by
  rw [Nat.testBit_lor, shiftLeft_one_eq, Nat.testBit_two_pow]

theorem lor_single_ne_zero (x i : Nat) : x ||| (1 <<< i) ≠ 0 := by
  refine (ne_zero_iff_exists_testBit _).mpr ⟨i, ?_⟩
  rw [testBit_lor_single]
  simp

theorem AICInv_latch (c : AICConfig) (hc : AICInv c) (prio intno : Nat) :
    AICInv { c with status := updAt c.status prio (c.status prio ||| (1 <<< intno)),
                    status_map := c.status_map ||| (1 <<< prio) } := by
  intro p hp
  show (c.status_map ||| (1 <<< prio)).testBit p = true ↔
    updAt c.status prio (c.status prio ||| (1 <<< intno)) p ≠ 0
  rw [testBit_lor_single]
  by_cases hpp : p = prio
  · subst hpp
    rw [updAt_self]
    simp [lor_single_ne_zero]
  · rw [updAt_ne _ _ _ _ hpp]
    have : decide (prio = p) = false := by
      simp
      omega
    rw [this, Bool.or_false]
    exact hc p hp

theorem setJointLoop_fst (levels : Nat → Nat) (js : Nat) :
    ∀ n p b, ((setJointLoop levels js n).1 p).testBit b = true ↔
      (b < n ∧ js.testBit b = true ∧ prioOf levels b = p) := by
  intro n
  induction n with
  | zero =>
      intro p b
      simp [setJointLoop, Nat.zero_testBit]
  | succ n ih =>
      intro p b
      simp only [setJointLoop]
      by_cases hbit : js &&& (1 <<< n) ≠ 0
      · rw [if_pos hbit]
        dsimp only
        have hjn : js.testBit n = true := (land_shiftLeft_one_ne_zero js n).mp hbit
        by_cases hp : p = prioOf levels n
        · subst hp
          rw [updAt_self, testBit_lor_single]
          constructor
          · intro h
            rcases Bool.or_eq_true_iff.mp h with h | h
            · obtain ⟨h1, h2, h3⟩ := (ih _ b).mp h
              exact ⟨by omega, h2, h3⟩
            · have hb : n = b := by simpa using h
              subst hb
              exact ⟨by omega, hjn, rfl⟩
          · rintro ⟨h1, h2, h3⟩
            rcases Nat.lt_succ_iff_lt_or_eq.mp h1 with h1 | h1
            · rw [(ih _ b).mpr ⟨h1, h2, h3⟩]
              simp
            · subst h1
              simp
        · rw [updAt_ne _ _ _ _ hp, ih]
          constructor
          · rintro ⟨h1, h2, h3⟩
            exact ⟨by omega, h2, h3⟩
          · rintro ⟨h1, h2, h3⟩
            rcases Nat.lt_succ_iff_lt_or_eq.mp h1 with h1 | h1
            · exact ⟨h1, h2, h3⟩
            · subst h1
              exact absurd h3.symm hp
      · rw [if_neg hbit]
        have hjn : js.testBit n = false := by
          simpa using mt (land_shiftLeft_one_ne_zero js n).mpr hbit
        rw [ih]
        constructor
        · rintro ⟨h1, h2, h3⟩
          exact ⟨by omega, h2, h3⟩
        · rintro ⟨h1, h2, h3⟩
          rcases Nat.lt_succ_iff_lt_or_eq.mp h1 with h1 | h1
          · exact ⟨h1, h2, h3⟩
          · subst h1
            rw [hjn] at h2
            exact absurd h2 (by simp)

theorem setJointLoop_snd (levels : Nat → Nat) (js : Nat) :
    ∀ n q, ((setJointLoop levels js n).2).testBit q = true ↔
      ∃ b, b < n ∧ js.testBit b = true ∧ prioOf levels b = q := by
  intro n
  induction n with
  | zero =>
      intro q
      simp [setJointLoop, Nat.zero_testBit]
  | succ n ih =>
      intro q
      simp only [setJointLoop]
      by_cases hbit : js &&& (1 <<< n) ≠ 0
      · rw [if_pos hbit]
        dsimp only
        have hjn : js.testBit n = true := (land_shiftLeft_one_ne_zero js n).mp hbit
        rw [testBit_lor_single]
        constructor
        · intro h
          rcases Bool.or_eq_true_iff.mp h with h | h
          · obtain ⟨b, h1, h2, h3⟩ := (ih q).mp h
            exact ⟨b, by omega, h2, h3⟩
          · have : prioOf levels n = q := by simpa using h
            exact ⟨n, by omega, hjn, this⟩
        · rintro ⟨b, h1, h2, h3⟩
          rcases Nat.lt_succ_iff_lt_or_eq.mp h1 with h1 | h1
          · rw [(ih q).mpr ⟨b, h1, h2, h3⟩]
            simp
          · subst h1
            rw [h3]
            simp
      · rw [if_neg hbit]
        have hjn : js.testBit n = false := by
          simpa using mt (land_shiftLeft_one_ne_zero js n).mpr hbit
        rw [ih]
        constructor
        · rintro ⟨b, h1, h2, h3⟩
          exact ⟨b, by omega, h2, h3⟩
        · rintro ⟨b, h1, h2, h3⟩
          rcases Nat.lt_succ_iff_lt_or_eq.mp h1 with h1 | h1
          · exact ⟨b, h1, h2, h3⟩
          · subst h1
            rw [hjn] at h2
            exact absurd h2 (by simp)

theorem set_joint_status_inv (c : AICConfig) (js : Nat) :
    AICInv (c.set_joint_status js) := by
  intro p hp
  show ((setJointLoop c.levels js 32).2).testBit p = true ↔
    (setJointLoop c.levels js 32).1 p ≠ 0
  rw [setJointLoop_snd, ne_zero_iff_exists_testBit]
  constructor
  · rintro ⟨b, h1, h2, h3⟩
    exact ⟨b, (setJointLoop_fst c.levels js 32 p b).mpr ⟨h1, h2, h3⟩⟩
  · rintro ⟨b, hb⟩
    obtain ⟨h1, h2, h3⟩ := (setJointLoop_fst c.levels js 32 p b).mp hb
    exact ⟨b, h1, h2, h3⟩

/-- Claim C2, counterexample: the priority-occupied invariant is not preserved
by `pop_next_interrupt`.  Starting from a state satisfying the invariant with
a single pending source, popping it clears the pending bit but leaves the
summary bit of its priority set. -/
theorem lle_C2_counterexample :
    AICInv cPopC2 ∧ ¬ AICInv cPopC2.pop_next_interrupt.1 := by
  constructor
  · decide
  · intro h
    have := (h 7 (by omega)).mp (by decide)
    exact this (by decide)

/-- Claim C2, amended: for every AIC state satisfying the priority-occupied
invariant (summary bit `p` set iff pending bitmap `p` is nonzero), the
invariant is preserved by latching via `check_interrupt`, re-established
unconditionally by `set_joint_status` (hence by `apply_status_set_mask` and
`apply_status_clear_mask`, and trivially across the pure `get_joint_status`
flattening), and untouched by `apply_enable_mask` / `apply_disable_mask`.
Dispatch via `pop_next_interrupt` is the exception: it clears a pending bit
without updating the summary, and can therefore break the invariant. -/
theorem lle_C2_theorem (c : AICConfig) (hc : AICInv c) :
    (∀ intno incoming latched,
       AICInv (c.check_interrupt intno incoming latched).1) ∧
    (∀ js, AICInv (c.set_joint_status js)) ∧
    (∀ m, AICInv (c.apply_status_set_mask m)) ∧
    (∀ m, AICInv (c.apply_status_clear_mask m)) ∧
    (∀ m, AICInv (c.apply_enable_mask m)) ∧
    (∀ m, AICInv (c.apply_disable_mask m)) := by
  refine ⟨?_, ?_, ?_, ?_, fun m => hc, fun m => hc⟩
  · intro intno incoming latched
    unfold AICConfig.check_interrupt
    dsimp only
    split
    · exact hc
    · split
      · exact AICInv_latch c hc _ intno
      · exact hc
  · exact set_joint_status_inv c
  · exact fun m => set_joint_status_inv c _
  · exact fun m => set_joint_status_inv c _

theorem lle_C2_witness :
    AICInv cPopC2 ∧
    AICInv (cPopC2.check_interrupt 2 true false).1 ∧
    AICInv (cPopC2.set_joint_status 0x14) ∧
    AICInv (cPopC2.apply_status_set_mask 0x8) ∧
    AICInv (cPopC2.apply_status_clear_mask 0x2) ∧
    AICInv (cPopC2.apply_enable_mask 0xff) ∧
    AICInv (cPopC2.apply_disable_mask 0xf) := by
  have h := lle_C2_theorem cPopC2 (by decide)
  exact ⟨by decide, h.1 2 true false, h.2.1 0x14, h.2.2.1 0x8,
    h.2.2.2.1 0x2, h.2.2.2.2.1 0xff, h.2.2.2.2.2 0xf⟩

theorem foldl_lor_testBit (f : Nat → Nat) :
    ∀ (n b : Nat),
      (((List.range n).foldl (fun acc e => acc ||| f e) 0).testBit b = true ↔
        ∃ i, i < n ∧ (f i).testBit b = true) := by
  intro n
  induction n with
  | zero =>
      intro b
      simp [Nat.zero_testBit]
  | succ n ih =>
      intro b
      rw [List.range_succ, List.foldl_append]
      simp only [List.foldl_cons, List.foldl_nil, Nat.testBit_lor]
      constructor
      · intro h
        rcases Bool.or_eq_true_iff.mp h with h | h
        · obtain ⟨i, h1, h2⟩ := (ih b).mp h
          exact ⟨i, by omega, h2⟩
        · exact ⟨n, by omega, h⟩
      · rintro ⟨i, h1, h2⟩
        rcases Nat.lt_succ_iff_lt_or_eq.mp h1 with h1 | h1
        · rw [(ih b).mpr ⟨i, h1, h2⟩]
          simp
        · subst h1
          rw [h2]
          simp

theorem get_joint_status_testBit (c : AICConfig) (b : Nat) :
    c.get_joint_status.testBit b = true ↔
      ∃ q, q < 8 ∧ (c.status q).testBit b = true :=
  foldl_lor_testBit c.status 8 b

/-- Claim C3: for every AIC state whose pending configuration is consistent
with the current priority table (each pending source's bit lies in the bucket
the levels table assigns to it, and each bitmap is a `u32`), unflattening the
flattened joint status reproduces the identical per-priority pending bitmaps,
and the re-derived priority-occupied summary marks exactly the priorities with
nonzero pending bitmaps. -/
theorem lle_C3_theorem (c : AICConfig) (hcons : AICConsistent c) :
    ∀ p, p < 8 →
      ((c.set_joint_status c.get_joint_status).status p = c.status p ∧
       ((c.set_joint_status c.get_joint_status).status_map.testBit p = true ↔
         c.status p ≠ 0)) := by
  obtain ⟨hu32, hpr⟩ := hcons
  intro p hp
  have hmem : ∀ b, (c.status p).testBit b = true →
      b < 32 ∧ prioOf c.levels b = p ∧ c.get_joint_status.testBit b = true := by
    intro b hb
    have hb32 : b < 32 := by
      by_contra hge
      rw [testBit_eq_false_of_ge (hu32 p hp) (by omega)] at hb
      exact absurd hb (by simp)
    exact ⟨hb32, hpr p hp b hb32 hb,
      (get_joint_status_testBit c b).mpr ⟨p, hp, hb⟩⟩
  have hback : ∀ b, b < 32 → c.get_joint_status.testBit b = true →
      prioOf c.levels b = p → (c.status p).testBit b = true := by
    intro b hb32 hjb hprio
    obtain ⟨q, hq, hqb⟩ := (get_joint_status_testBit c b).mp hjb
    have := hpr q hq b hb32 hqb
    rw [this] at hprio
    rw [hprio] at hqb
    exact hqb
  constructor
  · apply Nat.eq_of_testBit_eq
    intro b
    rw [Bool.eq_iff_iff]
    show ((setJointLoop c.levels c.get_joint_status 32).1 p).testBit b = true ↔ _
    rw [setJointLoop_fst]
    constructor
    · rintro ⟨h1, h2, h3⟩
      exact hback b h1 h2 h3
    · intro hb
      obtain ⟨h1, h2, h3⟩ := hmem b hb
      exact ⟨h1, h3, h2⟩
  · show ((setJointLoop c.levels c.get_joint_status 32).2).testBit p = true ↔ _
    rw [setJointLoop_snd, ne_zero_iff_exists_testBit]
    constructor
    · rintro ⟨b, h1, h2, h3⟩
      exact ⟨b, hback b h1 h2 h3⟩
    · rintro ⟨b, hb⟩
      obtain ⟨h1, h2, h3⟩ := hmem b hb
      exact ⟨b, h1, h3, h2⟩

theorem lle_C3_witness :
    AICConsistent cRoundC3 ∧
    ∀ p, p < 8 →
      ((cRoundC3.set_joint_status cRoundC3.get_joint_status).status p =
         cRoundC3.status p ∧
       ((cRoundC3.set_joint_status cRoundC3.get_joint_status).status_map.testBit p
           = true ↔ cRoundC3.status p ≠ 0)) :=
  ⟨by decide, lle_C3_theorem cRoundC3 (by decide)⟩

set_option maxHeartbeats 1000000 in
theorem BCS8_spec :
    ∀ m, m < 256 → m ≠ 0 →
      (BCS8.getD m 0 < 8 ∧ m.testBit (BCS8.getD m 0) = true ∧
       ∀ q, q < BCS8.getD m 0 → m.testBit q = false) := by
  decide

theorem firstBitIn_range' (x : Nat) :
    ∀ (len start : Nat),
      (firstBitIn x (List.range' start len) = 0 ∧
         ∀ i, start ≤ i → i < start + len → x.testBit i = false) ∨
      (x.testBit (firstBitIn x (List.range' start len)) = true ∧
         start ≤ firstBitIn x (List.range' start len) ∧
         firstBitIn x (List.range' start len) < start + len ∧
         ∀ i, start ≤ i → i < firstBitIn x (List.range' start len) →
           x.testBit i = false) := by
  intro len
  induction len with
  | zero =>
      intro start
      left
      exact ⟨rfl, fun i h1 h2 => by omega⟩
  | succ len ih =>
      intro start
      rw [List.range'_succ]
      simp only [firstBitIn]
      by_cases hb : x &&& (1 <<< start) ≠ 0
      · rw [if_pos hb]
        right
        refine ⟨(land_shiftLeft_one_ne_zero x start).mp hb, Nat.le_refl _,
          by omega, fun i h1 h2 => by omega⟩
      · rw [if_neg hb]
        have hstart : x.testBit start = false := by
          simpa using mt (land_shiftLeft_one_ne_zero x start).mpr hb
        rcases ih (start + 1) with ⟨h0, hall⟩ | ⟨ht, h1, h2, hall⟩
        · left
          refine ⟨h0, fun i hi1 hi2 => ?_⟩
          rcases Nat.eq_or_lt_of_le hi1 with hi1 | hi1
          · rw [← hi1]
            exact hstart
          · exact hall i (by omega) (by omega)
        · right
          refine ⟨ht, by omega, by omega, fun i hi1 hi2 => ?_⟩
          rcases Nat.eq_or_lt_of_le hi1 with hi1 | hi1
          · rw [← hi1]
            exact hstart
          · exact hall i (by omega) hi2

theorem land_u32_not_single {x n : Nat} (hx : x < 2 ^ 32) (hn : n < 32)
    (b : Nat) :
    (x &&& u32_not (1 <<< n)).testBit b =
      (x.testBit b && !(decide (b = n))) := by
  rw [u32_not, shiftLeft_one_eq, Nat.testBit_land, Nat.testBit_xor,
    Nat.testBit_two_pow_sub_one, Nat.testBit_two_pow]
  by_cases hb32 : b < 32
  · by_cases hbn : b = n
    · subst hbn
      simp [hb32]
    · have hnb : ¬ n = b := fun h => hbn h.symm
      simp [hb32, hbn, hnb]
  · rw [testBit_eq_false_of_ge hx (by omega)]
    simp

/-- Claim C4, counterexample: the bit scan of `next_interrupt` starts at bit 1,
so pending bit 0 is passed over whenever a higher bit of the same priority is
also pending.  In a state with bits 0 and 2 of priority 7 pending (reachable
through a joint-status write under the default levels table, which maps every
source to priority 7), `next_interrupt` returns source 2 even though the
lowest-numbered set bit is 0. -/
theorem lle_C4_counterexample :
    cScanC4.status_map ≠ 0 ∧
    (∀ p, p < 8 → cScanC4.status_map.testBit p = true → cScanC4.status p ≠ 0) ∧
    (cScanC4.status 7).testBit 0 = true ∧
    cScanC4.next_interrupt = (7, 2) := by
  refine ⟨by decide, by decide, by decide, ?_⟩
  decide

/-- Claim C4, amended: for every AIC state with `status_map` a nonzero byte
and every occupied priority's pending bitmap nonzero (and each bitmap a
`u32`), `next_interrupt()` returns `(p, n)` where `p` is the lowest-numbered
priority whose summary bit is set, and `n` is the lowest-numbered set bit
among bits 1-31 of that priority's pending bitmap — bit 0 is never scanned,
and `n = 0` is returned when no bit in 1-31 is set (i.e. only bit 0 is
pending).  `pop_next_interrupt()` returns the same pair, records it as the
in-service interrupt, and clears exactly pending bit `n` of priority `p`. -/
theorem lle_C4_theorem (c : AICConfig)
    (hm8 : c.status_map < 256) (hm0 : c.status_map ≠ 0)
    (hocc : ∀ p, p < 8 → c.status_map.testBit p = true → c.status p ≠ 0)
    (hu32 : ∀ p, p < 8 → c.status p < 2 ^ 32) :
    (c.status_map.testBit c.next_interrupt.1 = true ∧
     ∀ q, q < c.next_interrupt.1 → c.status_map.testBit q = false) ∧
    ((1 ≤ c.next_interrupt.2 ∧ c.next_interrupt.2 < 32 ∧
        (c.status c.next_interrupt.1).testBit c.next_interrupt.2 = true ∧
        ∀ i, 1 ≤ i → i < c.next_interrupt.2 →
          (c.status c.next_interrupt.1).testBit i = false) ∨
     (c.next_interrupt.2 = 0 ∧
        ∀ i, 1 ≤ i → i < 32 →
          (c.status c.next_interrupt.1).testBit i = false)) ∧
    c.pop_next_interrupt =
      ({ c with current_interrupt := c.next_interrupt,
                status := updAt c.status c.next_interrupt.1
                  (c.status c.next_interrupt.1 &&&
                    u32_not (1 <<< c.next_interrupt.2)) },
       c.next_interrupt) ∧
    (∀ b, (c.pop_next_interrupt.1.status c.next_interrupt.1).testBit b =
        ((c.status c.next_interrupt.1).testBit b &&
          !(decide (b = c.next_interrupt.2)))) := by
  obtain ⟨hpr8, hprbit, hprmin⟩ := BCS8_spec c.status_map hm8 hm0
  have hpend : c.status (BCS8.getD c.status_map 0) ≠ 0 :=
    hocc _ hpr8 hprbit
  have hnext : c.next_interrupt =
      (BCS8.getD c.status_map 0,
       firstBitIn (c.status (BCS8.getD c.status_map 0)) (List.range' 1 31)) := by
    unfold AICConfig.next_interrupt
    rw [if_neg hm0]
    dsimp only
    rw [if_neg hpend]
  have hn32 : c.next_interrupt.2 < 32 := by
    rw [hnext]
    rcases firstBitIn_range' (c.status (BCS8.getD c.status_map 0)) 31 1 with
      ⟨h0, -⟩ | ⟨-, -, h2, -⟩
    · rw [h0]
      omega
    · omega
  refine ⟨?_, ?_, rfl, ?_⟩
  · rw [hnext]
    exact ⟨hprbit, hprmin⟩
  · rw [hnext]
    dsimp only
    rcases firstBitIn_range' (c.status (BCS8.getD c.status_map 0)) 31 1 with
      ⟨h0, hall⟩ | ⟨ht, h1, h2, hall⟩
    · right
      rw [h0]
      exact ⟨rfl, fun i hi1 hi2 => hall i hi1 (by omega)⟩
    · left
      exact ⟨h1, by omega, ht, fun i hi1 hi2 => hall i hi1 hi2⟩
  · intro b
    have hp8 : c.next_interrupt.1 < 8 := by
      rw [hnext]
      exact hpr8
    show (updAt c.status c.next_interrupt.1 _ c.next_interrupt.1).testBit b = _
    rw [updAt_self]
    exact land_u32_not_single (hu32 _ hp8) hn32 b

theorem lle_C4_witness :
    (cScanC4.status_map < 256 ∧ cScanC4.status_map ≠ 0 ∧
     (∀ p, p < 8 → cScanC4.status_map.testBit p = true →
        cScanC4.status p ≠ 0) ∧
     (∀ p, p < 8 → cScanC4.status p < 2 ^ 32)) ∧
    ((cScanC4.status_map.testBit cScanC4.next_interrupt.1 = true ∧
      ∀ q, q < cScanC4.next_interrupt.1 →
        cScanC4.status_map.testBit q = false) ∧
     ((1 ≤ cScanC4.next_interrupt.2 ∧ cScanC4.next_interrupt.2 < 32 ∧
         (cScanC4.status cScanC4.next_interrupt.1).testBit
           cScanC4.next_interrupt.2 = true ∧
         ∀ i, 1 ≤ i → i < cScanC4.next_interrupt.2 →
           (cScanC4.status cScanC4.next_interrupt.1).testBit i = false) ∨
      (cScanC4.next_interrupt.2 = 0 ∧
         ∀ i, 1 ≤ i → i < 32 →
           (cScanC4.status cScanC4.next_interrupt.1).testBit i = false)) ∧
     cScanC4.pop_next_interrupt =
       ({ cScanC4 with current_interrupt := cScanC4.next_interrupt,
                       status := updAt cScanC4.status cScanC4.next_interrupt.1
                         (cScanC4.status cScanC4.next_interrupt.1 &&&
                           u32_not (1 <<< cScanC4.next_interrupt.2)) },
        cScanC4.next_interrupt) ∧
     (∀ b, (cScanC4.pop_next_interrupt.1.status
          cScanC4.next_interrupt.1).testBit b =
        ((cScanC4.status cScanC4.next_interrupt.1).testBit b &&
          !(decide (b = cScanC4.next_interrupt.2))))) :=
  ⟨⟨by decide, by decide, by decide, by decide⟩,
   lle_C4_theorem cScanC4 (by decide) (by decide) (by decide) (by decide)⟩

/-! ### Host-controller theorem (C8) -/

set_option maxHeartbeats 1600000 in
/-- Claim C8: when the SIC tick issues a staged command to a mapped card (no
reset or clock-delay one-shot pending, clock enabled, `co_en` set, port 0 or
2) and the card answers `RNone`, the controller sets the command-timeout
status flag; if a data-in or data-out phase was also requested, both data
enables are cleared, no transfer is performed (DMA count, DMA destination,
`block_xfer_done`, `crc_ok_dat`, the FIFO and the response registers are all
untouched) and the data-timeout status flag is set; and `post_interrupt` is
invoked exactly once if and only if the command-timeout enable bit is set, or
a data phase was cancelled and the data-timeout enable bit is set. -/
theorem lle_C8_theorem (sic : SICConfig) (dev : Device) (pack : RespPack)
    (memOk : Bool) (card2 : SD)
    (hr1 : sic.dma_control.reset = 0) (hr2 : sic.fmi_control.reset = 0)
    (hr3 : sic.sd_control.swrst = 0)
    (hd1 : sic.sd_control.clk74_oe = 0) (hd2 : sic.sd_control.clk8_oe = 0)
    (hco : sic.sd_control.co_en = 1)
    (hport :
      (sic.sd_control.sdport = 0 ∧
        dev.internal_sd.make_request sic.sd_control.cmd_code sic.sd_arg =
          (card2, .RNone)) ∨
      (sic.sd_control.sdport = 2 ∧
        dev.external_sd.make_request sic.sd_control.cmd_code sic.sd_arg =
          (card2, .RNone))) :
    ∃ sic2 dev2 posts,
      sic_tick true memOk pack sic dev = some (sic2, dev2, posts) ∧
      sic2.sd_irq.timeout_cmd = 1 ∧
      ((sic.sd_control.di_en = 1 ∨ sic.sd_control.do_en = 1) →
        (sic2.sd_control.di_en = 0 ∧ sic2.sd_control.do_en = 0 ∧
         sic2.sd_irq.timeout_dat = 1)) ∧
      ((sic.sd_control.di_en ≠ 1 ∧ sic.sd_control.do_en ≠ 1) →
        sic2.sd_irq.timeout_dat = sic.sd_irq.timeout_dat) ∧
      sic2.dma_count = sic.dma_count ∧
      sic2.dma_dest_addr = sic.dma_dest_addr ∧
      sic2.sd_irq.block_xfer_done = sic.sd_irq.block_xfer_done ∧
      sic2.sd_irq.crc_ok_dat = sic.sd_irq.crc_ok_dat ∧
      sic2.fifo = sic.fifo ∧
      sic2.sd_response = sic.sd_response ∧
      (1 ≤ posts ↔
        (sic.sd_irq_enable.timeout_cmd = 1 ∨
         ((sic.sd_control.di_en = 1 ∨ sic.sd_control.do_en = 1) ∧
          sic.sd_irq_enable.timeout_dat = 1))) := by
  have hcr : check_reset sic = (sic, false) := by
    simp [check_reset, hr1, hr2, hr3]
  have hcd : check_delay_condition sic = (sic, false) := by
    simp [check_delay_condition, hd1, hd2]
  rcases hport with ⟨hp, hreq⟩ | ⟨hp, hreq⟩ <;>
    by_cases hdi : sic.sd_control.di_en = 1 <;>
    by_cases hdo : sic.sd_control.do_en = 1 <;>
    by_cases htc : sic.sd_irq_enable.timeout_cmd = 1 <;>
    by_cases htd : sic.sd_irq_enable.timeout_dat = 1 <;>
    · simp only [sic_tick, hcr, hcd]
      simp [sicCmdPhase, hco, hp, hreq, hdi, hdo, htc, htd]
      refine ⟨_, _, _, ⟨rfl, rfl, rfl⟩, ?_⟩
      simp [hdi, hdo, htc, htd]

theorem lle_C8_witness :
    (sicCmdC8.dma_control.reset = 0 ∧ sicCmdC8.fmi_control.reset = 0 ∧
     sicCmdC8.sd_control.swrst = 0 ∧ sicCmdC8.sd_control.clk74_oe = 0 ∧
     sicCmdC8.sd_control.clk8_oe = 0 ∧ sicCmdC8.sd_control.co_en = 1 ∧
     sicCmdC8.sd_control.sdport = 0 ∧
     devC8.internal_sd.make_request sicCmdC8.sd_control.cmd_code
       sicCmdC8.sd_arg = (SD.new, .RNone)) ∧
    (∃ sic2 dev2 posts,
       sic_tick true true packZero sicCmdC8 devC8 = some (sic2, dev2, posts) ∧
       sic2.sd_irq.timeout_cmd = 1 ∧
       ((sicCmdC8.sd_control.di_en = 1 ∨ sicCmdC8.sd_control.do_en = 1) →
         (sic2.sd_control.di_en = 0 ∧ sic2.sd_control.do_en = 0 ∧
          sic2.sd_irq.timeout_dat = 1)) ∧
       ((sicCmdC8.sd_control.di_en ≠ 1 ∧ sicCmdC8.sd_control.do_en ≠ 1) →
         sic2.sd_irq.timeout_dat = sicCmdC8.sd_irq.timeout_dat) ∧
       sic2.dma_count = sicCmdC8.dma_count ∧
       sic2.dma_dest_addr = sicCmdC8.dma_dest_addr ∧
       sic2.sd_irq.block_xfer_done = sicCmdC8.sd_irq.block_xfer_done ∧
       sic2.sd_irq.crc_ok_dat = sicCmdC8.sd_irq.crc_ok_dat ∧
       sic2.fifo = sicCmdC8.fifo ∧
       sic2.sd_response = sicCmdC8.sd_response ∧
       (1 ≤ posts ↔
         (sicCmdC8.sd_irq_enable.timeout_cmd = 1 ∨
          ((sicCmdC8.sd_control.di_en = 1 ∨ sicCmdC8.sd_control.do_en = 1) ∧
           sicCmdC8.sd_irq_enable.timeout_dat = 1)))) :=
  ⟨⟨rfl, rfl, rfl, rfl, rfl, rfl, rfl, rfl⟩,
   lle_C8_theorem sicCmdC8 devC8 packZero true SD.new rfl rfl rfl rfl rfl rfl
     (Or.inl ⟨rfl, rfl⟩)⟩

end LLE
